import Mathlib

/-!
Shallow embedding of `ncdfchecker.py` (metosfc/ncdfchecker): a validator that
checks a netCDF product against a JSON constraints document.

Conventions of the embedding:
* Machine data is modelled over `Int` (the checker only ever uses whole-hour
  lead times and integral schema constants in the properties considered here).
* An absolute timestamp is an `Int`: the number of hours since the epoch
  1970-01-01T00:00 in the proleptic Gregorian calendar.  Python's
  `dateutil.parser.parse` applied to a reference-time string is modelled as
  already having produced this value (string parsing is an external
  collaborator of the engine).
* JSON documents (the constraints file) are modelled by `JValue`.
* `sys.exit(msg)` is modelled by `Except.error msg`; normal returns by
  `Except.ok`.
* The logger is modelled by an explicit list of severity-tagged messages.
-/

namespace NcdfChecker

/-- JSON-like values, as loaded by `load_constraints` (`json.loads`).
Numbers are modelled as integers; object key order is the document order,
matching Python dict iteration order. -/
inductive JValue where
  | str : String → JValue
  | num : Int → JValue
  | list : List JValue → JValue
  | dict : List (String × JValue) → JValue

mutual

/-- Python `==` on JSON-like values. -/
def JValue.beq : JValue → JValue → Bool
  | .str a, .str b => a == b
  | .num a, .num b => a == b
  | .list a, .list b => JValue.listBeq a b
  | .dict a, .dict b => JValue.dictBeq a b
  | _, _ => false

/-- Python `==` on lists of JSON-like values. -/
def JValue.listBeq : List JValue → List JValue → Bool
  | [], [] => true
  | a :: as, b :: bs => JValue.beq a b && JValue.listBeq as bs
  | _, _ => false

/-- Python `==` on string-keyed JSON objects (dicts preserve insertion order,
and two dicts are equal when they have the same key/value pairs; the
constraints documents compared here always share key order). -/
def JValue.dictBeq : List (String × JValue) → List (String × JValue) → Bool
  | [], [] => true
  | (k1, v1) :: as, (k2, v2) :: bs =>
      k1 == k2 && JValue.beq v1 v2 && JValue.dictBeq as bs
  | _, _ => false

end

instance : BEq JValue := ⟨JValue.beq⟩

/-- Python `x in l` for a JSON list. -/
def JValue.listMem (x : JValue) (l : List JValue) : Bool :=
  l.any (fun y => JValue.beq x y)

/-- Lookup in a string-keyed JSON object (Python `d[k]` / `k in d`). -/
def jlookup (d : List (String × JValue)) (k : String) : Option JValue :=
  match d.find? (fun p => p.1 == k) with
  | some p => some p.2
  | none => none

/-! ### Gregorian calendar arithmetic

Python's `datetime` uses the proleptic Gregorian calendar.  We convert
between a day number (days since 1970-01-01) and a civil date `(y, m, d)`
using the standard era-based algorithms, with floor division throughout. -/

/-- Leap-year test of the proleptic Gregorian calendar (`calendar.isleap`). -/
def isLeap (y : Int) : Bool :=
  y.fmod 4 == 0 && (y.fmod 100 != 0 || y.fmod 400 == 0)

/-- Number of days in a month (`calendar.monthrange(y, m)[1]`). -/
def daysInMonth (y m : Int) : Int :=
  if m == 2 then (if isLeap y then 29 else 28)
  else if m == 4 || m == 6 || m == 9 || m == 11 then 30
  else 31

/-- Day number (days since 1970-01-01) of a civil date. -/
def daysFromCivil (y m d : Int) : Int :=
  let yy := if m ≤ 2 then y - 1 else y
  let era := yy.fdiv 400
  let yoe := yy - era * 400
  let doy := (153 * (m + (if 2 < m then -3 else 9)) + 2).fdiv 5 + d - 1
  let doe := yoe * 365 + yoe.fdiv 4 - yoe.fdiv 100 + doy
  era * 146097 + doe - 719468

/-- Civil date `(y, m, d)` of a day number (days since 1970-01-01). -/
def civilFromDays (z : Int) : Int × Int × Int :=
  let zz := z + 719468
  let era := zz.fdiv 146097
  let doe := zz - era * 146097
  let yoe := (doe - doe.fdiv 1460 + doe.fdiv 36524 - doe.fdiv 146096).fdiv 365
  let y := yoe + era * 400
  let doy := doe - (365 * yoe + yoe.fdiv 4 - yoe.fdiv 100)
  let mp := (5 * doy + 2).fdiv 153
  let d := doy - (153 * mp + 2).fdiv 5 + 1
  let m := mp + (if mp < 10 then 3 else -9)
  (if m ≤ 2 then y + 1 else y, m, d)

/-- The `.year` field of the datetime at absolute hour `t`. -/
def yearOf (t : Int) : Int := (civilFromDays (t.fdiv 24)).1

/-- The `.month` field (1–12) of the datetime at absolute hour `t`. -/
def monthOf (t : Int) : Int := (civilFromDays (t.fdiv 24)).2.1

/-- The `.day` field of the datetime at absolute hour `t`. -/
def mdayOf (t : Int) : Int := (civilFromDays (t.fdiv 24)).2.2

/-- Absolute hour of a civil date plus an hour-of-day. -/
def hoursOfDate (y m d h : Int) : Int := daysFromCivil y m d * 24 + h

/-! ### dateutil.relativedelta

`relativedelta(dt1, dt2)` between two whole-hour datetimes: find the largest
month shift of `dt2` not overshooting `dt1` (starting from the raw
year/month-number difference and stepping toward `dt1`, exactly as in
dateutil), then decompose the remaining exact time difference.  All our
datetimes sit on whole hours, so minutes/seconds/microseconds are zero and
are omitted from the record. -/

/-- Python's `dateutil` internal `_sign`. -/
def pySign (x : Int) : Int := if x < 0 then -1 else if 0 < x then 1 else 0

/-- Adding `k` months to the datetime at absolute hour `t`
(`t + relativedelta(months=k)`): shift the absolute month number, clamp the
day-of-month to the target month length, keep the time of day. -/
def addMonths (t k : Int) : Int :=
  let z := t.fdiv 24
  let h := t.fmod 24
  let c := civilFromDays z
  let am := c.1 * 12 + (c.2.1 - 1) + k
  let y2 := am.fdiv 12
  let m2 := am.fmod 12 + 1
  let d2 := min c.2.2 (daysInMonth y2 m2)
  daysFromCivil y2 m2 d2 * 24 + h

/-- The month-adjustment loop of the `relativedelta(dt1, dt2)` constructor:
while the month-shifted `dt2` overshoots `dt1`, step the month count back
toward `dt1`.  The loop body runs at most once in fact; the fuel argument
makes the recursion structural. -/
def rdAdjustLoop (dt1 dt2 : Int) : Nat → Int → Int
  | 0, months => months
  | n + 1, months =>
      let dtm := addMonths dt2 months
      if dt1 < dt2 then
        (if dtm < dt1 then rdAdjustLoop dt1 dt2 n (months + 1) else months)
      else
        (if dt1 < dtm then rdAdjustLoop dt1 dt2 n (months - 1) else months)

/-- The fields of a normalized `relativedelta` between whole-hour datetimes. -/
structure RelativeDelta where
  years : Int
  months : Int
  days : Int
  hours : Int
deriving DecidableEq

/-- The `relativedelta(dt1, dt2)` constructor on whole-hour datetimes:
month count adjusted so `dt2` shifted by it does not overshoot `dt1`, split
into years and months (`_set_months`); the remaining exact hour difference
split into days and hours (`_fix`), each with dateutil's sign-adjusted
divmod. -/
def relativedelta (dt1 dt2 : Int) : RelativeDelta :=
  let months0 := (yearOf dt1 - yearOf dt2) * 12 + (monthOf dt1 - monthOf dt2)
  let months := rdAdjustLoop dt1 dt2 (months0.natAbs + 1) months0
  let dtm := addMonths dt2 months
  let ym :=
    if 11 < months.natAbs then
      let s := pySign months
      (((months.natAbs : Int).fdiv 12) * s, ((months.natAbs : Int).fmod 12) * s)
    else ((0 : Int), months)
  let h := dt1 - dtm
  let dh :=
    if 23 < h.natAbs then
      let s := pySign h
      (((h.natAbs : Int).fdiv 24) * s, ((h.natAbs : Int).fmod 24) * s)
    else ((0 : Int), h)
  ⟨ym.1, ym.2, dh.1, dh.2⟩

/-! ### The temporal interval checker -/

/-- The period keywords accepted by `get_period_stepsize`, i.e. the attribute
names of `relativedelta` it reads, plus the special-cased `month`. -/
inductive Period where
  | hours
  | days
  | month
  | years
deriving DecidableEq

/-- Tuple `ALLOWED_PERIODS = ('years', 'month')` from the source. -/
def ALLOWED_PERIODS : List String := ["years", "month"]

/-- Embedding of `get_period_stepsize(leadtimes, forecast_ref_time, period)`:
convert each lead time (hours since the forecast reference time) to an
absolute datetime; for `month`, take consecutive differences of the
calendar month numbers reduced modulo 12; otherwise read the `period`
attribute of the `relativedelta` of each consecutive datetime pair. -/
def get_period_stepsize (leadtimes : List Int) (forecast_ref_time : Int)
    (period : Period) : List Int :=
  let datetimes := leadtimes.map (fun leadtime => forecast_ref_time + leadtime)
  match period with
  | .month =>
      let periods := datetimes.map monthOf
      (List.zip periods.tail periods).map (fun q => (q.1 - q.2).fmod 12)
  | .hours =>
      (List.zip datetimes.tail datetimes).map (fun q => (relativedelta q.1 q.2).hours)
  | .days =>
      (List.zip datetimes.tail datetimes).map (fun q => (relativedelta q.1 q.2).days)
  | .years =>
      (List.zip datetimes.tail datetimes).map (fun q => (relativedelta q.1 q.2).years)

/-- Embedding of `check_stepsize(data, stepsize, forecast_ref_time, period)`:
with no period, consecutive raw differences of the data; with a period, the
period stepsizes; pass iff all equal `stepsize` (`np.all` on an empty array
is true). -/
def check_stepsize (data : List Int) (stepsize : Int) (forecast_ref_time : Int)
    (period : Option Period) : Bool :=
  let steparr : List Int :=
    match period with
    | none => (List.zip data.tail data).map (fun q => q.1 - q.2)
    | some p => get_period_stepsize data forecast_ref_time p
  steparr.all (fun s => s == stepsize)

/-! ### Products, messages, and helper coercions -/

/-- Severity of a logged message (the two handlers of the real logger route
`info` and `warn` to stdout and `error` to stderr; the routing is outside
the engine). -/
inductive Severity where
  | info
  | warn
  | error
deriving DecidableEq

/-- A severity-tagged log message. -/
structure Msg where
  sev : Severity
  text : String
deriving DecidableEq

/-- An in-memory netCDF product, as exposed by the `netCDF4.Dataset` handle:
global attributes (ordered), variable names (ordered), and per variable the
materialized data, the masked-elements flag, the attributes and the
dimension names.  `forecast_reference_time` is the product's global
attribute of that name, already parsed into an absolute hour (parsing of
the timestamp string is done by `dateutil.parser.parse`, an external
collaborator). -/
structure Product where
  varNames : List String
  varData : String → List Int
  varMasked : String → Bool
  varAttrs : String → List (String × JValue)
  varDims : String → List String
  globalAttrs : List (String × JValue)
  forecast_reference_time : Int

/-- Names of the global attributes (`product.ncattrs()`). -/
def Product.ncattrs (p : Product) : List String := p.globalAttrs.map Prod.fst

/-- Value of a global attribute (`product.getncattr(key)`); only evaluated on
present attributes (Python raises otherwise), so the default is immaterial. -/
def Product.getncattr (p : Product) (k : String) : JValue :=
  (jlookup p.globalAttrs k).getD (JValue.str "")

/-- Names of a variable's attributes (`product[var].ncattrs()`). -/
def Product.varAttrNames (p : Product) (var : String) : List String :=
  (p.varAttrs var).map Prod.fst

/-- Value of a variable's attribute (`product[var].getncattr(key)`); only
evaluated on present attributes, so the default is immaterial. -/
def Product.varGetncattr (p : Product) (var k : String) : JValue :=
  (jlookup (p.varAttrs var) k).getD (JValue.str "")

/-- Python membership of a JSON value in a list of strings (used for
`key in skip`, `key in product.ncattrs()`, `attname in ...ncattrs()`):
non-string values never equal a string. -/
def jInStrList (key : JValue) (l : List String) : Bool :=
  match key with
  | .str s => l.contains s
  | _ => false

/-- Python membership `x in v` for a JSON container value; the schemas under
consideration only use lists here (a non-list container is outside the
modelled domain and yields no membership). -/
def jvalContains (v : JValue) (x : JValue) : Bool :=
  match v with
  | .list l => JValue.listMem x l
  | _ => false

/-- String content of a JSON value, for positions the engine feeds to the
regular-expression matcher (Python would raise on non-strings there). -/
def asStringD (v : JValue) : String :=
  match v with
  | .str s => s
  | _ => ""

/-- Elements of a JSON list (positions the engine iterates over; iterating a
non-list is degenerate Python and outside the modelled domain). -/
def asJList (v : JValue) : List JValue :=
  match v with
  | .list l => l
  | _ => []

/-- Rendering of a JSON value for `%s` message formatting; only string and
numeric values ever reach a message in the modelled domain. -/
def jshow : JValue → String
  | .str s => s
  | .num n => toString n
  | _ => ""

/-- Python `repr` of a string (single-quoted), for the dimensions-mismatch
message. -/
def pyStrRepr (s : String) : String := "\x27" ++ s ++ "\x27"

/-- Python `str(list_of_strings)`. -/
def pyStrListRepr (l : List String) : String :=
  "[" ++ String.intercalate ", " (l.map pyStrRepr) ++ "]"

/-- Python `str` of a JSON list as read back from the constraints file. -/
def jListRepr (v : JValue) : String :=
  match v with
  | .list l =>
      "[" ++ String.intercalate ", "
        (l.map (fun x =>
          match x with
          | .str s => pyStrRepr s
          | .num n => toString n
          | _ => "")) ++ "]"
  | _ => ""

/-- Python `key.startswith(pre)`, implemented over the character list so
that it evaluates by plain reduction. -/
def pyStartsWith (s pre : String) : Bool :=
  pre.data.isPrefixOf s.data

/-- Elementwise `np.all(arr == v)` for a data array against a schema value:
a list compares elementwise when shapes agree (numpy yields no all-true
result on a shape mismatch), a number broadcasts, anything else is never
equal. -/
def npAllEq (arr : List Int) (v : JValue) : Bool :=
  match v with
  | .list l =>
      arr.length == l.length &&
        (List.zip arr l).all (fun q => JValue.beq (JValue.num q.1) q.2)
  | .num n => arr.all (fun x => x == n)
  | _ => false

/-- Numeric element `v[i]` of a schema bound list; the modelled domain has
two-element numeric bounds (Python indexes the raw JSON list). -/
def jIndexNum (v : JValue) (i : Nat) : Int :=
  match v with
  | .list l =>
      match l.get? i with
      | some (.num n) => n
      | _ => 0
  | _ => 0

/-- The minimum of a materialized data array (`np.amin`); only evaluated on
nonempty arrays (numpy raises on empty input). -/
def npAmin (arr : List Int) : Int :=
  match arr with
  | [] => 0
  | x :: xs => xs.foldl min x

/-- The maximum of a materialized data array (`np.amax`); only evaluated on
nonempty arrays. -/
def npAmax (arr : List Int) : Int :=
  match arr with
  | [] => 0
  | x :: xs => xs.foldl max x

/-! ### check_globals -/

/-- The raw `constraints['required_global_attributes']` list (the caller in
`__main__` only invokes `check_globals` when the entry is present; a
missing or non-list entry is outside the modelled domain and treated as
empty). -/
def requiredGlobalAttrsRaw (constraints : List (String × JValue)) : List JValue :=
  match jlookup constraints "required_global_attributes" with
  | some (JValue.list l) => l
  | _ => []

/-- One iteration of the `check_globals` loop body for a required global
attribute name `key` (already past the `skip` test): the branch on
presence in the product and on the shape of the same-named top-level
constraint entry.  Returns (errors, warnings, messages). -/
def checkGlobalKey (matchPattern : String → String → Bool) (product : Product)
    (constraints : List (String × JValue)) (key : JValue) :
    Int × Int × List Msg :=
  match key with
  | .str k =>
      if product.ncattrs.contains k then
        match jlookup constraints k with
        | some (JValue.list l) =>
            if JValue.listMem (product.getncattr k) l then
              (0, 0, [Msg.mk .info s!"OK - Global {k}"])
            else
              (1, 0, [Msg.mk .error s!"Global {k} not in allowed values"])
        | some (JValue.dict d) =>
            d.foldl (fun acc ck =>
              let r : Int × Int × List Msg :=
                if ck.1 == "pattern" then
                  let patt := asStringD ((jlookup d "pattern").getD (JValue.str ""))
                  let val := asStringD (product.getncattr k)
                  if matchPattern patt val then
                    (0, 0, [Msg.mk .info s!"OK - {k} matches pattern"])
                  else
                    (1, 0, [Msg.mk .error s!"{k} does not match required pattern"])
                else
                  let ckn := ck.1
                  (1, 0, [Msg.mk .error s!"Check for {k}, {ckn} not implemented"])
              (acc.1 + r.1, acc.2.1 + r.2.1, acc.2.2 ++ r.2.2))
              ((0 : Int), (0 : Int), ([] : List Msg))
        | some _ =>
            (0, 1, [Msg.mk .warn s!"Constraint on {k} is not defined"])
        | none =>
            (0, 0, [Msg.mk .info s!"OK - Global {k}"])
      else
        (1, 0, [Msg.mk .error s!"required global {k} not defined"])
  | other =>
      -- A non-string entry in required_global_attributes is never a product
      -- attribute name, so it lands in the required-global-missing branch.
      let kn := jshow other
      (1, 0, [Msg.mk .error s!"required global {kn} not defined"])

/-- Embedding of `check_globals(product, constraints, skip, strict)`:
loop over `required_global_attributes` (skipping `skip`), then, in strict
mode, one extra error for each product global attribute not listed there.
Returns (errcount, warncount, messages). -/
def check_globals (matchPattern : String → String → Bool) (product : Product)
    (constraints : List (String × JValue)) (skip : List String) (strict : Bool) :
    Int × Int × List Msg :=
  let base :=
    (requiredGlobalAttrsRaw constraints).foldl (fun acc key =>
      if jInStrList key skip then acc
      else
        let r := checkGlobalKey matchPattern product constraints key
        (acc.1 + r.1, acc.2.1 + r.2.1, acc.2.2 ++ r.2.2))
      ((0 : Int), (0 : Int), ([] : List Msg))
  if strict then
    product.ncattrs.foldl (fun acc key =>
      if JValue.listMem (JValue.str key) (requiredGlobalAttrsRaw constraints) then acc
      else
        (acc.1 + 1, acc.2.1,
         acc.2.2 ++ [Msg.mk .error s!"Unrequested global variable {key} present"]))
      base
  else base

/-! ### simple_variable_checks -/

/-- One entry `(intervalkey, stepv)` of a dict-valued `required_intervals`
constraint on variable `var`: if the companion variable exists, resolve the
period and stepsize (string cadence keyword from `ALLOWED_PERIODS` with
stepsize 1, aborting the run on any other string; numeric 24 becomes one
per day; any other numeric is hourly) and run `check_stepsize`; if the
companion is absent, log an error-severity message without touching the
error count.  Returns (errors added, messages). -/
def checkIntervalEntry (product : Product) (var key intervalkey : String)
    (stepv : JValue) : Except String (Int × List Msg) :=
  if product.varNames.contains intervalkey then
    let arr := product.varData intervalkey
    let startdate := product.forecast_reference_time
    let res : Except String Bool :=
      match stepv with
      | .str s =>
          if ALLOWED_PERIODS.contains s then
            let period : Period := if s == "month" then .month else .years
            .ok (check_stepsize arr 1 startdate (some period))
          else
            -- sys.exit of an f-string whose placeholder part lacks the
            -- f prefix: the braces are literal in the printed message.
            .error "Interval checks for period \x7bstep\x7d not yet implemented."
      | .num n =>
          if n == 24 then .ok (check_stepsize arr 1 startdate (some .days))
          else .ok (check_stepsize arr n startdate (some .hours))
      | _ =>
          -- numpy comparison of the stepsize array with a list/dict step
          -- specification is never elementwise all-true
          .ok false
    match res with
    | .error e => .error e
    | .ok ok =>
        if ok then
          .ok (0, [Msg.mk .info s!"OK: {var} : {key} - {intervalkey}"])
        else
          .ok (1, [Msg.mk .error s!"{var}: {key} not matched"])
  else
    .ok (0, [Msg.mk .error s!"{intervalkey} not in file"])

/-- The entries of a dict-valued `required_intervals` constraint, in document
order, folded with the run-abort short-circuit. -/
def checkIntervalEntries (product : Product) (var key : String) :
    List (String × JValue) → Except String (Int × List Msg)
  | [] => .ok (0, [])
  | (intervalkey, stepv) :: rest =>
      match checkIntervalEntry product var key intervalkey stepv with
      | .error e => .error e
      | .ok r =>
          match checkIntervalEntries product var key rest with
          | .error e => .error e
          | .ok rs => .ok (r.1 + rs.1, r.2 ++ rs.2)

/-- The `required_attributes` loop: one error per missing attribute name, one
info message per present one. -/
def checkRequiredAttrNames (product : Product) (var : String) :
    List JValue → Int × List Msg
  | [] => (0, [])
  | attname :: rest =>
      let an := jshow attname
      let r : Int × List Msg :=
        if !(jInStrList attname (product.varAttrNames var)) then
          (1, [Msg.mk .error s!"{var} : required attribute missing : {an}"])
        else
          (0, [Msg.mk .info s!"OK: {an} attribute present for {var}"])
      let rs := checkRequiredAttrNames product var rest
      (r.1 + rs.1, r.2 ++ rs.2)

/-- The `bounds` loop: each named companion variable must exist in the
product (presence only). -/
def checkBoundsNames (product : Product) (var : String) :
    List JValue → Int × List Msg
  | [] => (0, [])
  | bound :: rest =>
      let bn := jshow bound
      let r : Int × List Msg :=
        if !(jInStrList bound product.varNames) then
          (1, [Msg.mk .error s!"{bn} not found"])
        else
          (0, [Msg.mk .info s!"OK: {var} : {bn}"])
      let rs := checkBoundsNames product var rest
      (r.1 + rs.1, r.2 ++ rs.2)

/-- Dispatch of one schema key `key` (with value `v`) on variable `var`,
following the elif chain of `simple_variable_checks` in source order.
Returns (errors added, messages); warnings are never produced here. -/
def checkVarKey (matchPattern : String → String → Bool) (product : Product)
    (constraints : List (String × JValue)) (var key : String) (v : JValue) :
    Except String (Int × List Msg) :=
  if key == "required_values" then
    if npAllEq (product.varData var) v then
      .ok (0, [Msg.mk .info s!"OK: {var} : {key}"])
    else
      .ok (1, [Msg.mk .error s!"{var} : {key}"])
  else if key == "required_range" then
    let lo := jIndexNum v 0
    let hi := jIndexNum v 1
    if (product.varData var).any (fun x => x < lo) ||
        (product.varData var).any (fun x => hi < x) then
      .ok (1, [Msg.mk .error s!"{var} : {key} - outside allowed range"])
    else
      .ok (0, [Msg.mk .info s!"OK: {var} : {key}"])
  else if key == "required_min_max" then
    let arr := product.varData var
    if npAmin arr != jIndexNum v 0 || npAmax arr != jIndexNum v 1 then
      .ok (1, [Msg.mk .error
        s!"{var} : {key} - min_max values don\x27t align with specification"])
    else
      .ok (0, [Msg.mk .info s!"OK: {var} : {key}"])
  else if key == "required_attributes" then
    .ok (checkRequiredAttrNames product var (asJList v))
  else if key == "required_intervals" then
    match v with
    | .dict entries => checkIntervalEntries product var key entries
    | _ =>
        let arr := product.varData var
        let ok :=
          match v with
          | .num n => check_stepsize arr n 0 none
          | _ => false
        if ok then
          .ok (0, [Msg.mk .info s!"OK: {var} : {key}"])
        else
          .ok (1, [Msg.mk .error s!"{var}: {key} not matched"])
  else if pyStartsWith key "required" then
    -- the source logs this finding at error severity but does not
    -- increment errcount
    .ok (0, [Msg.mk .error s!"required check {key} Not implemented"])
  else if key == "bounds" then
    .ok (checkBoundsNames product var (asJList v))
  else if key == "cell_methods" then
    if matchPattern (asStringD v) (asStringD (product.varGetncattr var key)) then
      .ok (0, [Msg.mk .info s!"OK: {var} : {key}"])
    else
      .ok (1, [Msg.mk .error s!"{var} : {key} mismatch"])
  else if key == "dimensions" then
    if !(JValue.beq (JValue.list ((product.varDims var).map JValue.str)) v) then
      let got := pyStrListRepr (product.varDims var)
      let want := jListRepr v
      .ok (1, [Msg.mk .error s!"Dimensions mismatch got: {got} should have: {want}"])
    else
      .ok (0, [Msg.mk .info s!"OK: {var} : {key}"])
  else if ((jlookup constraints "required_global_attributes").isSome &&
      (match jlookup constraints "required_global_attributes" with
       | some rv => jvalContains rv (JValue.str key)
       | none => false)) then
    if product.ncattrs.contains key then
      if JValue.beq (product.getncattr key) v then
        .ok (0, [Msg.mk .info s!"OK: {var} : {key}"])
      else
        .ok (1, [Msg.mk .error s!"{var}:{key} mismatch"])
    else
      .ok (1, [Msg.mk .error s!"{var}:{key} global missing"])
  else
    if (product.varAttrNames var).contains key then
      if !(JValue.beq (product.varGetncattr var key) v) then
        .ok (1, [Msg.mk .error s!"Mismatch for {var} {key}"])
      else
        .ok (0, [Msg.mk .info s!"OK: {var} : {key}"])
    else
      .ok (1, [Msg.mk .error s!"{var} : {key} missing"])

/-- The per-variable key loop (`for key in constraints[variable]`), in
document order, with the run-abort short-circuit. -/
def checkVarKeys (matchPattern : String → String → Bool) (product : Product)
    (constraints : List (String × JValue)) (var : String) :
    List (String × JValue) → Except String (Int × List Msg)
  | [] => .ok (0, [])
  | (key, v) :: rest =>
      match checkVarKey matchPattern product constraints var key v with
      | .error e => .error e
      | .ok r =>
          match checkVarKeys matchPattern product constraints var rest with
          | .error e => .error e
          | .ok rs => .ok (r.1 + rs.1, r.2 ++ rs.2)

/-- The source condition
`'allowed_dimensions' in constraints and variable in constraints['allowed_dimensions']`. -/
def inAllowedDimensions (constraints : List (String × JValue)) (var : String) : Bool :=
  match jlookup constraints "allowed_dimensions" with
  | some ad => jvalContains ad (JValue.str var)
  | none => false

/-- The loop body of `simple_variable_checks` for one product variable:
the "Checking" info line, the strict fill-value check, the unknown-variable
handling (silent for allowed dimensions, error when strict, warning
otherwise), and the per-key dispatch.  Returns (errors, warnings,
messages). -/
def checkOneVariable (matchPattern : String → String → Bool) (product : Product)
    (constraints : List (String × JValue)) (strict : Bool) (var : String) :
    Except String (Int × Int × List Msg) :=
  let checking := [Msg.mk .info s!"Checking {var}"]
  let fill : Int × List Msg :=
    if strict && (product.varAttrNames var).contains "_FillValue" &&
        !(product.varMasked var) then
      (1, [Msg.mk .error s!"{var} : _FillValue present but unused"])
    else (0, [])
  match jlookup constraints var with
  | none =>
      if inAllowedDimensions constraints var then
        .ok (fill.1, 0, checking ++ fill.2)
      else if strict then
        .ok (fill.1 + 1, 0, checking ++ fill.2 ++ [Msg.mk .error s!"Unknown variable {var}"])
      else
        .ok (fill.1, 1, checking ++ fill.2 ++ [Msg.mk .warn s!"Unknown Variable {var}"])
  | some (JValue.dict entry) =>
      match checkVarKeys matchPattern product constraints var entry with
      | .error e => .error e
      | .ok r => .ok (fill.1 + r.1, 0, checking ++ fill.2 ++ r.2)
  | some _ =>
      -- a non-object per-variable schema entry is degenerate Python
      -- (iterating it yields no recognized keys in the modelled domain)
      .ok (fill.1, 0, checking ++ fill.2)

/-- The variable loop of `simple_variable_checks`, over a list of variable
names, with the run-abort short-circuit. -/
def checkVariablesList (matchPattern : String → String → Bool) (product : Product)
    (constraints : List (String × JValue)) (strict : Bool) :
    List String → Except String (Int × Int × List Msg)
  | [] => .ok (0, 0, [])
  | v :: rest =>
      match checkOneVariable matchPattern product constraints strict v with
      | .error e => .error e
      | .ok r =>
          match checkVariablesList matchPattern product constraints strict rest with
          | .error e => .error e
          | .ok rs => .ok (r.1 + rs.1, r.2.1 + rs.2.1, r.2.2 ++ rs.2.2)

/-- Embedding of `simple_variable_checks(product, constraints, strict)`:
the checks over every product variable, returning (errcount, warncount,
messages), or the abort message when an unsupported interval period ends
the run via `sys.exit`. -/
def simple_variable_checks (matchPattern : String → String → Bool)
    (product : Product) (constraints : List (String × JValue)) (strict : Bool) :
    Except String (Int × Int × List Msg) :=
  checkVariablesList matchPattern product constraints strict product.varNames

/-! ### Definitions taken from the specification text (for claim C3) -/

/-- Following the specification text, not the source: the "true calendar
delta between consecutive timestamps, measured in hours" is the plain
difference of their absolute hour positions. -/
def specTrueHourDelta (t2 t1 : Int) : Int := t2 - t1

/-- A sequence built by starting from `start` and repeatedly adding `s`
(`n` elements). -/
def arithSeq (start s : Int) (n : Nat) : List Int :=
  (List.range n).map (fun i : Nat => start + s * (i : Int))

/-- The field of `relativedelta(t2, t1)` read by `getattr(..., period)` for
the non-month periods (the month period never reaches `getattr`; its row
here is the `months` field, unused below). -/
def rdAttr (p : Period) (t2 t1 : Int) : Int :=
  match p with
  | .hours => (relativedelta t2 t1).hours
  | .days => (relativedelta t2 t1).days
  | .years => (relativedelta t2 t1).years
  | .month => (relativedelta t2 t1).months

/-- The extra (unrequested) global attributes that the strict block of
`check_globals` flags: product globals not listed in
`required_global_attributes`. -/
def strictExtraGlobals (product : Product) (constraints : List (String × JValue)) :
    List String :=
  product.ncattrs.filter
    (fun k => !(JValue.listMem (JValue.str k) (requiredGlobalAttrsRaw constraints)))

/-- The error messages the strict block of `check_globals` appends, in
product attribute order. -/
def strictExtraMsgs (product : Product) (constraints : List (String × JValue)) :
    List Msg :=
  (strictExtraGlobals product constraints).map
    (fun k => Msg.mk .error s!"Unrequested global variable {k} present")

/-- A product with two variables `vn` and `ck`, with data `d` on `ck`, no
attributes anywhere, and forecast reference time `ref` (used to exercise the
interval checks). -/
def twoVarProduct (vn ck : String) (d : List Int) (ref : Int) : Product :=
  { varNames := [vn, ck]
    varData := fun name => if name == ck then d else []
    varMasked := fun _ => false
    varAttrs := fun _ => []
    varDims := fun _ => []
    globalAttrs := []
    forecast_reference_time := ref }

/-- A product with a single attribute-less variable `v` holding `[0]`. -/
def oneVarProduct : Product :=
  { varNames := ["v"]
    varData := fun _ => [0]
    varMasked := fun _ => false
    varAttrs := fun _ => []
    varDims := fun _ => []
    globalAttrs := []
    forecast_reference_time := 0 }

/-- A product with no variables and no attributes. -/
def emptyProduct : Product :=
  { varNames := []
    varData := fun _ => []
    varMasked := fun _ => false
    varAttrs := fun _ => []
    varDims := fun _ => []
    globalAttrs := []
    forecast_reference_time := 0 }

/-- A pattern matcher that never matches (the concrete runs below have no
pattern constraints, so any matcher gives the same results). -/
def neverMatch : String → String → Bool := fun _ _ => false

/-! ### Helper lemmas -/

/-- Membership form of an all-elements-equal test over mapped consecutive
pairs of a mapped list. -/
lemma mapped_pairs_all_iff (f : Int → Int) (g : Int × Int → Int)
    (data : List Int) (step : Int) :
    (((List.zip (data.map f).tail (data.map f)).map g).all
        (fun s => s == step)) = true ↔
      ∀ q ∈ List.zip data.tail data, g (f q.1, f q.2) = step := by
  rw [← List.map_tail, List.zip_map, List.all_eq_true]
  constructor
  · intro h q hq
    have h2 := h _ (List.mem_map_of_mem g (List.mem_map_of_mem (Prod.map f f) hq))
    exact eq_of_beq h2
  · intro h x hx
    obtain ⟨r, hr, rfl⟩ := List.mem_map.mp hx
    obtain ⟨q, hq, rfl⟩ := List.mem_map.mp hr
    exact beq_iff_eq.mpr (h q hq)

/-- Membership form of `check_stepsize` with no period: all consecutive raw
differences equal the stepsize. -/
lemma check_stepsize_none_iff (data : List Int) (step ref : Int) :
    check_stepsize data step ref none = true ↔
      ∀ q ∈ List.zip data.tail data, q.1 - q.2 = step := by
  have hs : check_stepsize data step ref none =
      ((List.zip data.tail data).map (fun q => q.1 - q.2)).all
        (fun s => s == step) := rfl
  rw [hs, List.all_eq_true]
  constructor
  · intro h q hq
    exact eq_of_beq (h _ (List.mem_map_of_mem (fun q => q.1 - q.2) hq))
  · intro h x hx
    obtain ⟨q, hq, rfl⟩ := List.mem_map.mp hx
    exact beq_iff_eq.mpr (h q hq)

/-- Unfolding of `arithSeq` at a successor length. -/
lemma arithSeq_succ (start s : Int) (n : Nat) :
    arithSeq start s (n + 1) = start :: arithSeq (start + s) s n := by
  simp only [arithSeq, List.range_succ_eq_map, List.map_cons, List.map_map]
  congr 1
  · push_cast
    ring
  · apply List.map_congr_left
    intro i _
    simp only [Function.comp_apply]
    push_cast
    ring

/-- Every consecutive pair of an arithmetic sequence differs by its common
difference. -/
lemma arithSeq_pair_diff (s : Int) :
    ∀ (n : Nat) (start : Int) (q : Int × Int),
      q ∈ List.zip (arithSeq start s n).tail (arithSeq start s n) →
        q.1 - q.2 = s := by
  intro n
  induction n with
  | zero =>
      intro start q hq
      simp [arithSeq] at hq
  | succ m ih =>
      intro start q hq
      rw [arithSeq_succ] at hq
      simp only [List.tail_cons] at hq
      cases m with
      | zero =>
          simp [arithSeq] at hq
      | succ k =>
          rw [arithSeq_succ] at hq
          rw [List.zip_cons_cons] at hq
          rcases List.mem_cons.mp hq with h | h
          · rw [h]; ring
          · have hgoal : q ∈ List.zip (arithSeq (start + s) s (k + 1)).tail
                (arithSeq (start + s) s (k + 1)) := by
              rw [arithSeq_succ]
              simpa only [List.tail_cons] using h
            exact ih (start + s) q hgoal

/-- Accumulator form of the strict block of `check_globals`: folding the
extra-attribute check over a name list adds the number of unlisted names to
the error count, leaves the warning count unchanged, and appends one error
message per unlisted name. -/
lemma strict_fold_additive (rga : List JValue) (l : List String)
    (acc : Int × Int × List Msg) :
    l.foldl (fun acc key =>
        if JValue.listMem (JValue.str key) rga then acc
        else (acc.1 + 1, acc.2.1,
          acc.2.2 ++ [Msg.mk .error s!"Unrequested global variable {key} present"]))
      acc =
      (acc.1 + ((l.filter (fun k => !(JValue.listMem (JValue.str k) rga))).length : Int),
       acc.2.1,
       acc.2.2 ++ (l.filter (fun k => !(JValue.listMem (JValue.str k) rga))).map
         (fun k => Msg.mk .error s!"Unrequested global variable {k} present")) := by
  induction l generalizing acc with
  | nil => simp
  | cons x xs ih =>
      rw [List.foldl_cons, List.filter_cons]
      by_cases hx : JValue.listMem (JValue.str x) rga
      · simp only [hx, if_true, Bool.not_true, Bool.false_eq_true, if_false]
        exact ih acc
      · simp only [hx, if_false, Bool.not_false, if_true]
        rw [ih]
        simp only [Prod.mk.injEq, List.length_cons, List.map_cons]
        refine ⟨?_, rfl, ?_⟩
        · push_cast
          ring
        · simp

/-! ### The claims -/

/-- Claim C1 (code bug): a schema key starting with `required` that is none
of the recognized constraint kinds is logged as a "Not implemented" finding
at error severity, but the error count `simple_variable_checks` returns is
not incremented: the run below has exactly that finding and still reports
zero errors (its sibling `check_globals` increments the count for its own
unimplemented-check finding, and the caller's exit status only consults the
count). -/
theorem c1_unimplemented_required_check_not_counted :
    simple_variable_checks neverMatch oneVarProduct
      [("v", JValue.dict [("required_foobar", JValue.num 1)])] false =
      Except.ok (0, 0, [Msg.mk .info "Checking v",
        Msg.mk .error "required check required_foobar Not implemented"]) := by
  rfl

/-- Claim C2: a dict-valued `required_intervals` entry whose companion
variable is present and whose stepsize is a string outside the supported
cadence keywords aborts the entire validation run (`sys.exit`), for any
variable names, data, reference time and strictness — nothing of the rest
of the run is processed and no ordinary error is recorded. -/
theorem c2_unsupported_period_aborts (matchPattern : String → String → Bool)
    (vn ck s : String) (d : List Int) (ref : Int) (strict : Bool)
    (hs : s ∉ ALLOWED_PERIODS) :
    simple_variable_checks matchPattern (twoVarProduct vn ck d ref)
      [(vn, JValue.dict [("required_intervals", JValue.dict [(ck, JValue.str s)])])]
      strict =
      Except.error "Interval checks for period \x7bstep\x7d not yet implemented." := by
  simp [simple_variable_checks, checkVariablesList, checkOneVariable,
    twoVarProduct, jlookup, checkVarKeys, checkVarKey, checkIntervalEntries,
    checkIntervalEntry, hs]

/-- Claim C2 witness: a concrete run with the unsupported period keyword
`weeks` aborts. -/
theorem c2_unsupported_period_aborts_witness :
    simple_variable_checks neverMatch (twoVarProduct "v" "t" [0] 0)
      [("v", JValue.dict [("required_intervals",
        JValue.dict [("t", JValue.str "weeks")])])] false =
      Except.error "Interval checks for period \x7bstep\x7d not yet implemented." :=
  c2_unsupported_period_aborts neverMatch "v" "t" "weeks" [0] 0 false (by decide)

/-- Claim C3 (counterexample): the claim "passes iff every true calendar
delta between consecutive timestamps, measured in that unit, equals
expected_step exactly" fails for period `hours`: offsets `[0, 30]` from
2020-01-01T00:00Z pass with expected_step 6 although the true delta
measured in hours is 30, not 6 (the checker reads the hours component of
the normalized relativedelta, which is 6 after 1 day is carried out). -/
theorem c3_true_calendar_delta_counterexample :
    check_stepsize [0, 30] 6 (hoursOfDate 2020 1 1 0) (some Period.hours) = true ∧
      specTrueHourDelta (hoursOfDate 2020 1 1 0 + 30) (hoursOfDate 2020 1 1 0 + 0)
        ≠ 6 := by
  constructor
  · decide
  · decide

/-- Claim C3 (amended): for period hours, days or years,
`check_stepsize` converts every offset to the absolute timestamp
`reference_time + offset` hours and passes iff, for every consecutive pair
of timestamps, the named unit's component of the normalized calendar
difference (the `relativedelta` decomposition into years, months, days and
hours) equals expected_step exactly. -/
theorem c3_relativedelta_component_iff (data : List Int) (step ref : Int)
    (p : Period) (hp : p ≠ Period.month) :
    check_stepsize data step ref (some p) = true ↔
      ∀ q ∈ List.zip data.tail data, rdAttr p (ref + q.1) (ref + q.2) = step := by
  cases p with
  | month => exact absurd rfl hp
  | hours =>
      have hs : check_stepsize data step ref (some Period.hours) =
          ((List.zip ((data.map (fun x => ref + x)).tail)
              (data.map (fun x => ref + x))).map
            (fun q => (relativedelta q.1 q.2).hours)).all (fun s => s == step) := rfl
      rw [hs]
      exact mapped_pairs_all_iff (fun x => ref + x)
        (fun q => (relativedelta q.1 q.2).hours) data step
  | days =>
      have hs : check_stepsize data step ref (some Period.days) =
          ((List.zip ((data.map (fun x => ref + x)).tail)
              (data.map (fun x => ref + x))).map
            (fun q => (relativedelta q.1 q.2).days)).all (fun s => s == step) := rfl
      rw [hs]
      exact mapped_pairs_all_iff (fun x => ref + x)
        (fun q => (relativedelta q.1 q.2).days) data step
  | years =>
      have hs : check_stepsize data step ref (some Period.years) =
          ((List.zip ((data.map (fun x => ref + x)).tail)
              (data.map (fun x => ref + x))).map
            (fun q => (relativedelta q.1 q.2).years)).all (fun s => s == step) := rfl
      rw [hs]
      exact mapped_pairs_all_iff (fun x => ref + x)
        (fun q => (relativedelta q.1 q.2).years) data step

/-- Claim C3 witness: the two yearly examples of the claim, leap
(2020-01-01 with offsets 8784 and 17544) and non-leap (2017-01-01 with
offsets 8760 and 17520), both pass with expected_step 1 and period years. -/
theorem c3_relativedelta_component_iff_witness :
    check_stepsize [8784, 17544] 1 (hoursOfDate 2020 1 1 0)
      (some Period.years) = true ∧
    check_stepsize [8760, 17520] 1 (hoursOfDate 2017 1 1 0)
      (some Period.years) = true := by
  constructor
  · exact (c3_relativedelta_component_iff [8784, 17544] 1 (hoursOfDate 2020 1 1 0)
      Period.years (by decide)).mpr (by decide)
  · exact (c3_relativedelta_component_iff [8760, 17520] 1 (hoursOfDate 2017 1 1 0)
      Period.years (by decide)).mpr (by decide)

/-- Claim C4: for period month, for every offset sequence and reference
time, `check_stepsize` passes iff every consecutive difference of the
timestamps' calendar month numbers (1–12), reduced modulo 12 (so a
December-to-January step of −11 normalizes to 1), equals expected_step
exactly. -/
theorem c4_month_mode_iff (data : List Int) (step ref : Int) :
    check_stepsize data step ref (some Period.month) = true ↔
      ∀ q ∈ List.zip data.tail data,
        (monthOf (ref + q.1) - monthOf (ref + q.2)).fmod 12 = step := by
  have hs : check_stepsize data step ref (some Period.month) =
      ((List.zip ((data.map (fun x => monthOf (ref + x))).tail)
          (data.map (fun x => monthOf (ref + x)))).map
        (fun q => (q.1 - q.2).fmod 12)).all (fun s => s == step) := by
    simp only [check_stepsize, get_period_stepsize, List.map_map]
    rfl
  rw [hs]
  exact mapped_pairs_all_iff (fun x => monthOf (ref + x))
    (fun q => (q.1 - q.2).fmod 12) data step

/-- Claim C5 (counterexample): the sequence `[0, 1]` is built from 0 by
repeatedly adding the step 1, yet the interval check under the month period
mode returns false, so the check does not return true under every period
mode. -/
theorem c5_every_period_mode_counterexample :
    arithSeq 0 1 2 = [0, 1] ∧
    check_stepsize (arithSeq 0 1 2) 1 (hoursOfDate 2020 1 1 0)
      (some Period.month) = false := by
  constructor
  · decide
  · decide

/-- Claim C5 (amended): for every step `s` and every sequence built by
starting from any value and repeatedly adding `s`, the interval check
returns true in the mode where the period is omitted (None); this does not
extend to every period mode. -/
theorem c5_arithmetic_sequence_none_mode (start s : Int) (n : Nat) (ref : Int) :
    check_stepsize (arithSeq start s n) s ref none = true :=
  (check_stepsize_none_iff (arithSeq start s n) s ref).mpr
    (fun q hq => arithSeq_pair_diff s n start q hq)

/-- Claim C6: with the period omitted, `check_stepsize` passes iff every
consecutive raw difference of the values equals expected_step exactly, and
every sequence with fewer than two elements is vacuously true, for every
expected_step. -/
theorem c6_none_mode_raw_diffs (data : List Int) (step ref : Int) :
    (check_stepsize data step ref none = true ↔
      ∀ q ∈ List.zip data.tail data, q.1 - q.2 = step) ∧
    (data.length < 2 → check_stepsize data step ref none = true) := by
  refine ⟨check_stepsize_none_iff data step ref, fun h => ?_⟩
  refine (check_stepsize_none_iff data step ref).mpr ?_
  intro q hq
  rcases data with - | ⟨a, rest⟩
  · simp at hq
  · rcases rest with - | ⟨b, t⟩
    · simp at hq
    · exfalso
      simp only [List.length_cons] at h
      omega

/-- Claim C6 witness: a concrete stepping sequence passes, and a
one-element sequence passes vacuously. -/
theorem c6_none_mode_raw_diffs_witness :
    check_stepsize [4, 7, 10] 3 0 none = true ∧
    check_stepsize [9] 5 0 none = true := by
  constructor
  · exact (c6_none_mode_raw_diffs [4, 7, 10] 3 0).1.mpr (by decide)
  · exact (c6_none_mode_raw_diffs [9] 5 0).2 (by decide)

/-- Claim C7: a dict-valued `required_intervals` entry with a present
companion variable and a numeric stepsize is checked with period days and
stepsize 1 when the stepsize is exactly 24, and with period hours and the
given stepsize otherwise; the daily check is a calendar-day cadence, not a
raw 24-hour difference (offsets `[0, 25]` pass the days/1 check but fail a
raw difference-equals-24 check). -/
theorem c7_numeric_interval_dispatch (p : Product) (var key ck : String)
    (n : Int) (h : ck ∈ p.varNames) :
    (checkIntervalEntry p var key ck (JValue.num n) =
      if check_stepsize (p.varData ck) (if n == 24 then 1 else n)
          p.forecast_reference_time
          (some (if n == 24 then Period.days else Period.hours)) then
        Except.ok (0, [Msg.mk .info s!"OK: {var} : {key} - {ck}"])
      else
        Except.ok (1, [Msg.mk .error s!"{var}: {key} not matched"])) ∧
    check_stepsize [0, 25] 1 0 (some Period.days) = true ∧
    check_stepsize [0, 25] 24 0 none = false := by
  refine ⟨?_, by decide, by decide⟩
  by_cases hn : n == 24
  · simp [checkIntervalEntry, h, hn]
  · simp [checkIntervalEntry, h, hn]

/-- Claim C7 witness: with stepsize 24 and companion data `[0, 24, 48]`
from reference hour 0, the dispatched days/1 check passes. -/
theorem c7_numeric_interval_dispatch_witness :
    checkIntervalEntry (twoVarProduct "v" "t" [0, 24, 48] 0) "v"
      "required_intervals" "t" (JValue.num 24) =
      Except.ok (0, [Msg.mk .info "OK: v : required_intervals - t"]) := by
  have h := (c7_numeric_interval_dispatch (twoVarProduct "v" "t" [0, 24, 48] 0)
    "v" "required_intervals" "t" 24 (by decide)).1
  rw [h]
  rfl

/-- Claim C8: in strict mode `check_globals` returns exactly the non-strict
result plus one error per dataset global attribute not listed in
`required_global_attributes`, with the warning count unchanged and the
extra error messages appended after all required-attribute findings — so
the required-attribute checks are all still evaluated and their outcome is
unaffected. -/
theorem c8_strict_globals_additive (matchPattern : String → String → Bool)
    (product : Product) (constraints : List (String × JValue))
    (skip : List String) :
    check_globals matchPattern product constraints skip true =
      ((check_globals matchPattern product constraints skip false).1 +
        ((strictExtraGlobals product constraints).length : Int),
       (check_globals matchPattern product constraints skip false).2.1,
       (check_globals matchPattern product constraints skip false).2.2 ++
         strictExtraMsgs product constraints) := by
  simp only [check_globals, if_true, if_false]
  rw [strict_fold_additive]
  rfl

/-- Claim C9: a product variable with no schema entry is, in non-strict
mode, exactly one warning and zero errors when it is not an allowed
dimension, and silently passed (no error, no warning, no finding beyond
the "Checking" info line) when it is listed in `allowed_dimensions`. -/
theorem c9_unknown_variable_nonstrict (matchPattern : String → String → Bool)
    (p : Product) (c : List (String × JValue)) (var : String)
    (h : jlookup c var = none) :
    (inAllowedDimensions c var = false →
      checkOneVariable matchPattern p c false var =
        Except.ok (0, 1, [Msg.mk .info s!"Checking {var}",
          Msg.mk .warn s!"Unknown Variable {var}"])) ∧
    (inAllowedDimensions c var = true →
      checkOneVariable matchPattern p c false var =
        Except.ok (0, 0, [Msg.mk .info s!"Checking {var}"])) := by
  constructor <;> intro hd <;> simp [checkOneVariable, h, hd]

/-- Claim C9 witness: with `allowed_dimensions = ["time"]`, the unknown
variable `x` yields one warning and zero errors, while `time` passes with
no finding. -/
theorem c9_unknown_variable_nonstrict_witness :
    checkOneVariable neverMatch emptyProduct
      [("allowed_dimensions", JValue.list [JValue.str "time"])] false "x" =
      Except.ok (0, 1, [Msg.mk .info "Checking x",
        Msg.mk .warn "Unknown Variable x"]) ∧
    checkOneVariable neverMatch emptyProduct
      [("allowed_dimensions", JValue.list [JValue.str "time"])] false "time" =
      Except.ok (0, 0, [Msg.mk .info "Checking time"]) := by
  constructor
  · exact (c9_unknown_variable_nonstrict neverMatch emptyProduct
      [("allowed_dimensions", JValue.list [JValue.str "time"])] "x" (by rfl)).1
      (by rfl)
  · exact (c9_unknown_variable_nonstrict neverMatch emptyProduct
      [("allowed_dimensions", JValue.list [JValue.str "time"])] "time" (by rfl)).2
      (by rfl)

/-- Claim C10: a dict-valued `required_intervals` entry naming a companion
variable absent from the product emits an error-severity message but adds
nothing to the error count, and a concrete run whose only finding is such
a missing companion reports zero errors (and zero warnings). -/
theorem c10_missing_companion_not_counted (p : Product) (var key ck : String)
    (sv : JValue) (h : ck ∉ p.varNames) :
    (checkIntervalEntry p var key ck sv =
      Except.ok (0, [Msg.mk .error s!"{ck} not in file"])) ∧
    simple_variable_checks neverMatch oneVarProduct
      [("v", JValue.dict [("required_intervals",
        JValue.dict [("t2", JValue.num 6)])])] false =
      Except.ok (0, 0, [Msg.mk .info "Checking v",
        Msg.mk .error "t2 not in file"]) := by
  refine ⟨?_, by rfl⟩
  simp [checkIntervalEntry, h]

/-- Claim C10 witness: the entry-level fact applied at a concrete absent
companion. -/
theorem c10_missing_companion_not_counted_witness :
    checkIntervalEntry emptyProduct "v" "required_intervals" "t2"
      (JValue.num 6) =
      Except.ok (0, [Msg.mk .error "t2 not in file"]) :=
  (c10_missing_companion_not_counted emptyProduct "v" "required_intervals" "t2"
    (JValue.num 6) (by decide)).1

end NcdfChecker
